/-
Verification of the PKI state and command-orchestration layer of an
easy-rsa front end.  The definitions below are shallow embeddings of the
Python sources: `easyrsa/models.py`, `easyrsa/parser.py`,
`easyrsa/wrapper.py` and `easyrsa/pki.py`.  Strings are modelled as
`List Char` internally (with `String` wrappers at the boundary), files are
modelled as `Option (List String)` (a missing file is `none`, an existing
file is its list of lines without trailing newlines, which is equivalent
because every consumer strips each line first), and the subprocess
boundary is modelled as an explicit outcome oracle.
-/
import Mathlib

set_option linter.unusedVariables false

namespace EasyRsa

/-! ## Python string primitives -/

/-- The characters stripped by Python's `str.strip()` (ASCII fragment),
which is also the character class of the regex shorthand for whitespace. -/
def pyIsSpace (c : Char) : Bool :=
  c = ' ' || c = '\t' || c = '\n' || c = '\r' || c = '\x0b' || c = '\x0c'

/-- Python `str.strip()`: drop whitespace from both ends. -/
def pyStrip (l : List Char) : List Char :=
  ((l.dropWhile pyIsSpace).reverse.dropWhile pyIsSpace).reverse

/-- Python `str.lower()` on one ASCII character. -/
def pyToLower (c : Char) : Char :=
  if 'A' ≤ c ∧ c ≤ 'Z' then Char.ofNat (c.toNat + 32) else c

/-- Python `str.lower()`. -/
def pyLower (l : List Char) : List Char :=
  l.map pyToLower

/-- Python `s.startswith(c)` for a one-character needle. -/
def startsWithChar (c : Char) : List Char → Bool
  | [] => false
  | a :: _ => a = c

/-- Python substring membership `needle in hay`. -/
def strIn (needle : List Char) : List Char → Bool
  | [] => needle.isEmpty
  | c :: rest => needle.isPrefixOf (c :: rest) || strIn needle rest

/-- Python `s.split(sep)` for a one-character separator (no maxsplit). -/
def pySplitChar (sep : Char) : List Char → List (List Char)
  | [] => [[]]
  | c :: rest =>
    if c = sep then [] :: pySplitChar sep rest
    else
      match pySplitChar sep rest with
      | [] => [[c]]
      | x :: xs => (c :: x) :: xs

/-- Python `s.split(None, 1)`: skip leading whitespace, take the first
whitespace-free token, then the remainder with its leading whitespace
removed; at most two pieces, and no pieces for an all-whitespace string. -/
def pySplitNone1 (s : List Char) : List (List Char) :=
  let s1 := s.dropWhile pyIsSpace
  if s1.isEmpty then []
  else
    let tok := s1.takeWhile (fun c => !(pyIsSpace c))
    let rest := (s1.dropWhile (fun c => !(pyIsSpace c))).dropWhile pyIsSpace
    if rest.isEmpty then [tok] else [tok, rest]

/-- Python `s.split(eqChar, 1)`: split at the first occurrence of the
separator, if any. -/
def pySplitEq1 (s : List Char) : List (List Char) :=
  let pre := s.takeWhile (fun c => !(c = '='))
  match s.dropWhile (fun c => !(c = '=')) with
  | [] => [s]
  | _ :: tail => [pre, tail]

/-- A double or single quote character, the strip set of Python
`str.strip` applied to the two quote characters. -/
def isQuote (c : Char) : Bool :=
  c = '"' || c = '\''

/-- Python `value.strip(quotes)`: drop quote characters from both ends. -/
def stripQuotes (l : List Char) : List Char :=
  ((l.dropWhile isQuote).reverse.dropWhile isQuote).reverse

/-- Python dict assignment `d[k] = v` on an insertion-ordered
association list: an existing key keeps its position and gets the new
value, a new key is appended. -/
def dictInsert (k v : String) (d : List (String × String)) : List (String × String) :=
  if d.any (fun p => p.1 == k) then
    d.map (fun p => if p.1 == k then (k, v) else p)
  else d ++ [(k, v)]

/-! ## Datetimes and `strptime` -/

/-- A Python `datetime` at second granularity (the sub-second part is
always zero for timestamps produced by the index-file parser). -/
structure DateTime where
  year : Nat
  month : Nat
  day : Nat
  hour : Nat
  minute : Nat
  second : Nat
deriving DecidableEq, Repr

/-- Gregorian leap-year test. -/
def isLeapYear (y : Nat) : Bool :=
  (y % 4 = 0 && !(y % 100 = 0)) || y % 400 = 0

/-- Number of days of a month in a given year. -/
def daysInMonth (y m : Nat) : Nat :=
  if m = 2 then (if isLeapYear y then 29 else 28)
  else if m = 4 || m = 6 || m = 9 || m = 11 then 30
  else 31

/-- Numeric value of a decimal digit character. -/
def digitVal (c : Char) : Nat :=
  c.toNat - 48

/-- Python `datetime.strptime` for the fixed-width index-file
timestamp format: two-digit year, month, day, hour, minute, second and a
literal terminating letter Z.  Two-digit years below 69 land in the
2000s, the rest in the 1900s (the POSIX pivot used by Python).  The
calendar and range checks reproduce what the combination of the
format regex and the `datetime` constructor accepts on a thirteen
character input; any failure raises, which the callers turn into a skip,
so the embedding returns an `Option`. -/
def strptime_yymmddhhmmssZ (s : List Char) : Option DateTime :=
  match s with
  | [y1, y2, m1, m2, d1, d2, h1, h2, n1, n2, s1, s2, 'Z'] =>
    if y1.isDigit && y2.isDigit && m1.isDigit && m2.isDigit &&
       d1.isDigit && d2.isDigit && h1.isDigit && h2.isDigit &&
       n1.isDigit && n2.isDigit && s1.isDigit && s2.isDigit then
      let yy := 10 * digitVal y1 + digitVal y2
      let year := if yy ≤ 68 then 2000 + yy else 1900 + yy
      let month := 10 * digitVal m1 + digitVal m2
      let day := 10 * digitVal d1 + digitVal d2
      let hour := 10 * digitVal h1 + digitVal h2
      let minute := 10 * digitVal n1 + digitVal n2
      let second := 10 * digitVal s1 + digitVal s2
      if 1 ≤ month && month ≤ 12 && 1 ≤ day && day ≤ daysInMonth year month &&
         hour ≤ 23 && minute ≤ 59 && second ≤ 59 then
        some { year := year, month := month, day := day,
               hour := hour, minute := minute, second := second }
      else none
    else none
  | _ => none

/-- Python `datetime` comparison: lexicographic on the components. -/
def dtLt (a b : DateTime) : Bool :=
  if a.year ≠ b.year then a.year < b.year
  else if a.month ≠ b.month then a.month < b.month
  else if a.day ≠ b.day then a.day < b.day
  else if a.hour ≠ b.hour then a.hour < b.hour
  else if a.minute ≠ b.minute then a.minute < b.minute
  else a.second < b.second

/-! ## Data model (`easyrsa/models.py`) -/

/-- Certificate status enumeration. -/
inductive CertificateStatus where
  | VALID
  | REVOKED
  | EXPIRED
deriving DecidableEq, Repr

/-- Certificate type enumeration. -/
inductive CertificateType where
  | CA
  | SERVER
  | CLIENT
deriving DecidableEq, Repr

/-- Certificate information record. -/
structure Certificate where
  status : CertificateStatus
  expiration_date : DateTime
  revocation_date : Option DateTime
  serial_number : String
  filename : String
  common_name : String
  cert_type : Option CertificateType := none
deriving DecidableEq, Repr

/-- `Certificate.is_valid`: ambient `datetime.now()` is passed explicitly
as the evaluation time. -/
def Certificate.is_valid (c : Certificate) (now : DateTime) : Bool :=
  if c.status ≠ CertificateStatus.VALID then false
  else if dtLt c.expiration_date now then false
  else true

/-- Outcome record of one external-tool invocation. -/
structure CommandResult where
  success : Bool
  stdout : String
  stderr : String
  exit_code : Int
  message : String := ""
deriving DecidableEq, Repr

/-! ## Parser (`easyrsa/parser.py`) -/

/-- Match attempt of the slash-convention CN search at the current
position: a slash, the letters C and N, an equals sign, then a maximal
nonempty run of non-slash characters (the greedy capture group). -/
def matchSlashCNAt (l : List Char) : Option (List Char) :=
  match l with
  | '/' :: 'C' :: 'N' :: '=' :: rest =>
    let cap := rest.takeWhile (fun c => !(c = '/'))
    if cap.isEmpty then none else some cap
  | _ => none

/-- Leftmost match of the slash-convention CN search over the whole
string, as performed by the first regex search of the source. -/
def searchSlashCN : List Char → Option (List Char)
  | [] => none
  | c :: rest =>
    match matchSlashCNAt (c :: rest) with
    | some cap => some cap
    | none => searchSlashCN rest

/-- Match attempt of the comma-convention CN search at the current
position: the letters C and N, optional whitespace, an equals sign,
optional whitespace, then a nonempty capture of non-comma characters.
The greedy whitespace run backtracks by one character when the capture
would otherwise be empty, exactly as the regex engine does. -/
def matchCommaCNAt (l : List Char) : Option (List Char) :=
  match l with
  | 'C' :: 'N' :: rest =>
    match rest.dropWhile pyIsSpace with
    | '=' :: rest2 =>
      let w := rest2.takeWhile pyIsSpace
      let r := rest2.dropWhile pyIsSpace
      let cap := r.takeWhile (fun c => !(c = ','))
      if !cap.isEmpty then some cap
      else
        match w.getLast? with
        | some c => some [c]
        | none => none
    | _ => none
  | _ => none

/-- Leftmost match of the comma-convention CN search over the whole
string, as performed by the second regex search of the source. -/
def searchCommaCN : List Char → Option (List Char)
  | [] => none
  | c :: rest =>
    match matchCommaCNAt (c :: rest) with
    | some cap => some cap
    | none => searchCommaCN rest

/-- `EasyRSAParser.extract_cn_from_dn`, character-list core: the slash
convention is tried first and its capture returned verbatim; otherwise
the comma convention is tried and its capture returned stripped;
otherwise the empty string. -/
def extract_cn_from_dn_chars (dn : List Char) : List Char :=
  match searchSlashCN dn with
  | some cap => cap
  | none =>
    match searchCommaCN dn with
    | some cap => pyStrip cap
    | none => []

/-- `EasyRSAParser.extract_cn_from_dn`. -/
def extract_cn_from_dn (dn : String) : String :=
  String.mk (extract_cn_from_dn_chars dn.data)

/-- The status-character dispatch of `parse_index_line`: the letters V,
R and E map to the three statuses, anything else to a skip. -/
def statusOfField (s : List Char) : Option CertificateStatus :=
  if s = ['V'] then some CertificateStatus.VALID
  else if s = ['R'] then some CertificateStatus.REVOKED
  else if s = ['E'] then some CertificateStatus.EXPIRED
  else none

/-- The revocation-field handling of `parse_index_line`: an empty field
yields no timestamp, otherwise the field must parse. -/
def parseRevocationField (r : List Char) : Option (Option DateTime) :=
  if r = [] then some none
  else (strptime_yymmddhhmmssZ r).map some

/-- `EasyRSAParser.parse_index_line`: strip, skip blank and comment
lines, split on tabs, require at least five fields, dispatch the status
character, parse the two timestamps, and assemble the certificate.
Any parse failure inside the guarded region returns a skip, mirroring
the caught exception of the source. -/
def parse_index_line (rawLine : List Char) : Option Certificate :=
  if pyStrip rawLine = [] then none
  else if startsWithChar '#' (pyStrip rawLine) then none
  else if (pySplitChar '\t' (pyStrip rawLine)).length < 5 then none
  else
    match statusOfField ((pySplitChar '\t' (pyStrip rawLine)).getD 0 []) with
    | none => none
    | some status =>
      match strptime_yymmddhhmmssZ ((pySplitChar '\t' (pyStrip rawLine)).getD 1 []) with
      | none => none
      | some expiration_date =>
        match parseRevocationField ((pySplitChar '\t' (pyStrip rawLine)).getD 2 []) with
        | none => none
        | some revocation_date =>
          some { status := status,
                 expiration_date := expiration_date,
                 revocation_date := revocation_date,
                 serial_number := String.mk ((pySplitChar '\t' (pyStrip rawLine)).getD 3 []),
                 filename := if (pySplitChar '\t' (pyStrip rawLine)).length > 4
                             then String.mk ((pySplitChar '\t' (pyStrip rawLine)).getD 4 [])
                             else "unknown",
                 common_name := String.mk (extract_cn_from_dn_chars
                                  ((pySplitChar '\t' (pyStrip rawLine)).getD 5 [])),
                 cert_type := none }

/-- `EasyRSAParser.parse_index_file`: a missing file yields the empty
list, an existing file is read line by line, keeping the lines that
parse. -/
def parse_index_file (indexFile : Option (List String)) : List Certificate :=
  match indexFile with
  | none => []
  | some lines => lines.filterMap (fun line => parse_index_line line.data)

/-- `EasyRSAParser.detect_cert_type`: the lowercased path is checked for
the three filename substrings in priority order; only when none occurs
is the external tool consulted, its lowercased output checked for the
three extension phrases in order, with client as the default.  The
oracle argument is the stdout of the external tool, or `none` when the
invocation raised (which the source swallows before defaulting). -/
def detect_cert_type (cert_path : String) (opensslExtOutput : Option String) : CertificateType :=
  if strIn "ca".data (pyLower cert_path.data) then CertificateType.CA
  else if strIn "server".data (pyLower cert_path.data) then CertificateType.SERVER
  else if strIn "client".data (pyLower cert_path.data) then CertificateType.CLIENT
  else
    match opensslExtOutput with
    | some out =>
      if strIn "tls web server".data (pyLower out.data) then CertificateType.SERVER
      else if strIn "tls web client".data (pyLower out.data) then CertificateType.CLIENT
      else if strIn "certificate sign".data (pyLower out.data) then CertificateType.CA
      else CertificateType.CLIENT
    | none => CertificateType.CLIENT

/-- The per-line keep-or-drop step of `parse_error_message`: strip the
line, drop it when blank, drop it when it begins with a bracket or an
asterisk, keep it when it mentions error or failed case-insensitively. -/
def errorLineStep (rawLine : List Char) : Option (List Char) :=
  if (pyStrip rawLine).isEmpty then none
  else if startsWithChar '[' (pyStrip rawLine) || startsWithChar '*' (pyStrip rawLine) then none
  else if strIn "error".data (pyLower (pyStrip rawLine)) ||
          strIn "failed".data (pyLower (pyStrip rawLine)) then some (pyStrip rawLine)
  else none

/-- `EasyRSAParser.parse_error_message`. -/
def parse_error_message (stderr : String) : String :=
  if stderr = "" then "Unknown error occurred"
  else
    let lines := pySplitChar '\n' stderr.data
    let error_lines := lines.filterMap errorLineStep
    if error_lines ≠ [] then String.mk (List.intercalate ['\n'] (error_lines.take 3))
    else
      let non_empty := lines.filter (fun l => !(pyStrip l).isEmpty)
      if non_empty ≠ [] then String.mk (List.intercalate ['\n'] (non_empty.take 3))
      else String.mk (stderr.data.take 200)

/-- Error-summary recomputation following the words of the claim for
comparison with the source embedding: lines starting with a bracket or
an asterisk are dropped as noise; of the remaining lines those
containing error or failed case-insensitively are returned, up to
three; if none match, the first three non-empty lines are returned
instead; an entirely empty input returns the fixed sentinel; failing
everything else the first 200 characters of the raw text are returned
verbatim. -/
def claim_error_summary (stderr : String) : String :=
  if stderr = "" then "Unknown error occurred"
  else
    let lines := pySplitChar '\n' stderr.data
    let cleaned := (lines.map pyStrip).filter
      (fun l => !l.isEmpty && !(startsWithChar '[' l) && !(startsWithChar '*' l))
    let preferred := cleaned.filter
      (fun l => strIn "error".data (pyLower l) || strIn "failed".data (pyLower l))
    if preferred ≠ [] then String.mk (List.intercalate ['\n'] (preferred.take 3))
    else
      let nonEmpty := lines.filter (fun l => !(pyStrip l).isEmpty)
      if nonEmpty ≠ [] then String.mk (List.intercalate ['\n'] (nonEmpty.take 3))
      else String.mk (stderr.data.take 200)

/-! ## Command runner (`easyrsa/wrapper.py`) -/

/-- Terminal outcome of the subprocess boundary inside the command
runner: normal completion with an exit code and captured streams, the
timeout exception, the missing-executable exception, or any other
spawn-level exception with its text. -/
inductive SpawnOutcome where
  | completed (returncode : Int) (stdout stderr : String)
  | timedOut
  | fileNotFound
  | otherError (errText : String)
deriving DecidableEq, Repr

/-- `EasyRSAWrapper._run_command`: the argument list only contributes to
the spawned command line, the returned record depends on the configured
binary path and the spawn outcome. -/
def run_command (easyrsa_bin : String) (args : List String) (outcome : SpawnOutcome) : CommandResult :=
  match outcome with
  | SpawnOutcome.completed rc out err =>
    { success := rc == 0, stdout := out, stderr := err, exit_code := rc, message := "" }
  | SpawnOutcome.timedOut =>
    { success := false, stdout := "", stderr := "Command timed out", exit_code := -1,
      message := "Command execution timed out after 60 seconds" }
  | SpawnOutcome.fileNotFound =>
    { success := false, stdout := "",
      stderr := "easy-rsa binary not found: " ++ easyrsa_bin, exit_code := -1,
      message := "Could not find easy-rsa at " ++ easyrsa_bin }
  | SpawnOutcome.otherError e =>
    { success := false, stdout := "", stderr := e, exit_code := -1,
      message := "Error running command: " ++ e }

/-- The loop body of `EasyRSAWrapper.set_vars`. -/
def set_vars_line (env : List (String × String)) (rawLine : String) : List (String × String) :=
  if List.isPrefixOf "set_var ".data (pyStrip rawLine.data) then
    match pySplitNone1 ((pyStrip rawLine.data).drop 8) with
    | [k, v] => dictInsert (String.mk k) (String.mk (stripQuotes v)) env
    | _ => env
  else if List.isPrefixOf "export ".data (pyStrip rawLine.data) then
    match pySplitEq1 ((pyStrip rawLine.data).drop 7) with
    | [k, v] => dictInsert (String.mk (pyStrip k)) (String.mk (stripQuotes v)) env
    | _ => env
  else env

/-- `EasyRSAWrapper.set_vars`: a missing file yields the empty mapping,
otherwise the lines are folded through the loop body. -/
def set_vars (varsFile : Option (List String)) : List (String × String) :=
  match varsFile with
  | none => []
  | some lines => lines.foldl set_vars_line []

/-! ## PKI store (`easyrsa/pki.py`) -/

/-- `PKIManager.list_certificates`: empty when the index file does not
exist, otherwise the parsed index, optionally filtered by status. -/
def list_certificates (indexFile : Option (List String))
    (status_filter : Option CertificateStatus) : List Certificate :=
  match indexFile with
  | none => []
  | some _ =>
    match status_filter with
    | some st => (parse_index_file indexFile).filter (fun c => decide (c.status = st))
    | none => parse_index_file indexFile

/-- The mapping returned by `PKIManager.count_certificates`. -/
structure CertCounts where
  total : Nat
  valid : Nat
  revoked : Nat
  expired : Nat
deriving DecidableEq, Repr

/-- The loop body of `count_certificates`. -/
def countStep (counts : CertCounts) (cert : Certificate) : CertCounts :=
  if cert.status = CertificateStatus.VALID then
    { counts with valid := counts.valid + 1 }
  else if cert.status = CertificateStatus.REVOKED then
    { counts with revoked := counts.revoked + 1 }
  else if cert.status = CertificateStatus.EXPIRED then
    { counts with expired := counts.expired + 1 }
  else counts

/-- `PKIManager.count_certificates`: the total is seeded with the list
length and the three per-status counters are accumulated in one pass. -/
def count_certificates (indexFile : Option (List String)) : CertCounts :=
  (list_certificates indexFile none).foldl countStep
    { total := (list_certificates indexFile none).length,
      valid := 0, revoked := 0, expired := 0 }

/-- Number of certificates of a list holding a given status. -/
def countWithStatus (st : CertificateStatus) (l : List Certificate) : Nat :=
  (l.filter (fun c => decide (c.status = st))).length

/-! ## Helper lemmas -/

theorem pySplitChar_ne_nil (sep : Char) (l : List Char) : pySplitChar sep l ≠ [] := by
  induction l with
  | nil => simp [pySplitChar]
  | cons c rest ih =>
    by_cases h : c = sep
    · simp [pySplitChar, h]
    · simp only [pySplitChar, if_neg h]
      cases hr : pySplitChar sep rest with
      | nil => simp
      | cons x xs => simp

theorem pySplitChar_head (sep : Char) (l : List Char) (c : Char) (cs : List Char)
    (rest : List (List Char)) (h : pySplitChar sep l = (c :: cs) :: rest) :
    l.head? = some c := by
  cases l with
  | nil => simp [pySplitChar] at h
  | cons a t =>
    by_cases ha : a = sep
    · simp [pySplitChar, ha] at h
    · simp only [pySplitChar, if_neg ha] at h
      cases hr : pySplitChar sep t with
      | nil => exact absurd hr (pySplitChar_ne_nil sep t)
      | cons x xs =>
        rw [hr] at h
        simp only [List.cons.injEq] at h
        simp [h.1.1]

theorem statusOfField_eq_some (s : List Char) (st : CertificateStatus)
    (h : statusOfField s = some st) : s = ['V'] ∨ s = ['R'] ∨ s = ['E'] := by
  by_cases h1 : s = ['V']
  · exact Or.inl h1
  · by_cases h2 : s = ['R']
    · exact Or.inr (Or.inl h2)
    · by_cases h3 : s = ['E']
      · exact Or.inr (Or.inr h3)
      · simp [statusOfField, h1, h2, h3] at h

theorem errorLines_eq (lines : List (List Char)) :
    lines.filterMap errorLineStep =
      ((lines.map pyStrip).filter
        (fun l => !l.isEmpty && !(startsWithChar '[' l) && !(startsWithChar '*' l))).filter
        (fun l => strIn "error".data (pyLower l) || strIn "failed".data (pyLower l)) := by
  induction lines with
  | nil => rfl
  | cons x xs ih =>
    simp only [List.filterMap_cons, List.map_cons, List.filter_cons]
    cases hA : (pyStrip x).isEmpty with
    | true => simp [errorLineStep, hA, ih]
    | false =>
      cases hB : startsWithChar '[' (pyStrip x) with
      | true => simp [errorLineStep, hA, hB, ih]
      | false =>
        cases hC : startsWithChar '*' (pyStrip x) with
        | true => simp [errorLineStep, hA, hB, hC, ih]
        | false =>
          cases hD : (strIn "error".data (pyLower (pyStrip x)) ||
                      strIn "failed".data (pyLower (pyStrip x))) with
          | true => simp [errorLineStep, hA, hB, hC, hD, ih]
          | false => simp [errorLineStep, hA, hB, hC, hD, ih]

theorem countStep_foldl (l : List Certificate) (acc : CertCounts) :
    l.foldl countStep acc =
      ⟨acc.total, acc.valid + countWithStatus CertificateStatus.VALID l,
       acc.revoked + countWithStatus CertificateStatus.REVOKED l,
       acc.expired + countWithStatus CertificateStatus.EXPIRED l⟩ := by
  induction l generalizing acc with
  | nil => simp [countWithStatus]
  | cons c t ih =>
    rw [List.foldl_cons, ih]
    cases hs : c.status <;>
      simp [countStep, countWithStatus, List.filter_cons, hs, CertCounts.mk.injEq] <;>
      omega

theorem length_eq_statusSum (l : List Certificate) :
    l.length = countWithStatus CertificateStatus.VALID l +
               countWithStatus CertificateStatus.REVOKED l +
               countWithStatus CertificateStatus.EXPIRED l := by
  induction l with
  | nil => rfl
  | cons c t ih =>
    cases hs : c.status <;>
      simp only [countWithStatus, List.filter_cons, List.length_cons, hs] at ih ⊢ <;>
      simp <;> omega

/-! ## Claims -/

/-- Claim C1: the command runner classifies every terminal outcome of a
spawn into a total `CommandResult`: a timeout yields a failed result
with exit code minus one and the exact synthetic timeout message; a
missing executable yields a failed result with exit code minus one and a
message naming the configured binary path; completion with exit code
zero yields success; completion with a nonzero exit code yields failure
with stdout and stderr preserved verbatim; any other spawn failure also
yields a failed result, so no case escapes as an exception. -/
theorem C1_run_command_outcomes :
    ∀ (bin : String) (args : List String) (rc : Int) (out err txt : String),
      run_command bin args SpawnOutcome.timedOut =
        { success := false, stdout := "", stderr := "Command timed out", exit_code := -1,
          message := "Command execution timed out after 60 seconds" } ∧
      run_command bin args SpawnOutcome.fileNotFound =
        { success := false, stdout := "", stderr := "easy-rsa binary not found: " ++ bin,
          exit_code := -1, message := "Could not find easy-rsa at " ++ bin } ∧
      run_command bin args (SpawnOutcome.completed rc out err) =
        { success := rc == 0, stdout := out, stderr := err, exit_code := rc, message := "" } ∧
      (rc = 0 → (run_command bin args (SpawnOutcome.completed rc out err)).success = true) ∧
      (rc ≠ 0 → (run_command bin args (SpawnOutcome.completed rc out err)).success = false) ∧
      run_command bin args (SpawnOutcome.otherError txt) =
        { success := false, stdout := "", stderr := txt, exit_code := -1,
          message := "Error running command: " ++ txt } := by
  intro bin args rc out err txt
  refine ⟨rfl, rfl, rfl, ?_, ?_, rfl⟩
  · intro h
    subst h
    rfl
  · intro h
    simp [run_command, h]

/-- Witness for C1 at concrete inputs. -/
theorem C1_run_command_outcomes_witness :
    (run_command "easyrsa" ["init-pki"] (SpawnOutcome.completed 0 "ok" "")).success = true ∧
    (run_command "easyrsa" ["init-pki"] (SpawnOutcome.completed 5 "" "boom")).success = false := by
  refine ⟨?_, ?_⟩
  · exact (C1_run_command_outcomes "easyrsa" ["init-pki"] 0 "ok" "" "x").2.2.2.1 rfl
  · exact (C1_run_command_outcomes "easyrsa" ["init-pki"] 5 "" "boom" "x").2.2.2.2.1 (by decide)

/-- Claim C4: CN extraction tries the slash-delimited convention first
and returns its capture when it matches; only when it does not match is
the comma-delimited convention tried, whose capture is returned
stripped; when neither matches the empty string is returned.  The three
example evaluations of the specification hold. -/
theorem C4_extract_cn_order :
    (∀ (dn cap : List Char), searchSlashCN dn = some cap →
      extract_cn_from_dn_chars dn = cap) ∧
    (∀ (dn cap : List Char), searchSlashCN dn = none → searchCommaCN dn = some cap →
      extract_cn_from_dn_chars dn = pyStrip cap) ∧
    (∀ (dn : List Char), searchSlashCN dn = none → searchCommaCN dn = none →
      extract_cn_from_dn_chars dn = []) ∧
    extract_cn_from_dn "/CN=server1/O=MyOrg" = "server1" ∧
    extract_cn_from_dn "CN = server1, O=MyOrg" = "server1" ∧
    extract_cn_from_dn "O=MyOrg" = "" := by
  refine ⟨?_, ?_, ?_, by decide, by decide, by decide⟩
  · intro dn cap h
    simp [extract_cn_from_dn_chars, h]
  · intro dn cap h1 h2
    simp [extract_cn_from_dn_chars, h1, h2]
  · intro dn h1 h2
    simp [extract_cn_from_dn_chars, h1, h2]

/-- Witness for C4 at concrete inputs. -/
theorem C4_extract_cn_order_witness :
    extract_cn_from_dn_chars (String.data "/CN=host7/OU=lab") = String.data "host7" := by
  exact C4_extract_cn_order.1 (String.data "/CN=host7/OU=lab") (String.data "host7") (by decide)

/-- Claim C10: only the comma-delimited convention strips surrounding
whitespace from the extracted value; the slash-delimited capture is
returned verbatim, so a slash-form DN with whitespace around the value
keeps that whitespace while the comma form of the same value is
trimmed. -/
theorem C10_extract_cn_whitespace :
    (∀ (dn cap : List Char), searchSlashCN dn = some cap →
      extract_cn_from_dn_chars dn = cap) ∧
    (∀ (dn cap : List Char), searchSlashCN dn = none → searchCommaCN dn = some cap →
      extract_cn_from_dn_chars dn = pyStrip cap) ∧
    extract_cn_from_dn "/CN= server1 /O=MyOrg" = " server1 " ∧
    extract_cn_from_dn "CN= server1 , O=MyOrg" = "server1" := by
  refine ⟨?_, ?_, by decide, by decide⟩
  · intro dn cap h
    simp [extract_cn_from_dn_chars, h]
  · intro dn cap h1 h2
    simp [extract_cn_from_dn_chars, h1, h2]

/-- Witness for C10 at concrete inputs. -/
theorem C10_extract_cn_whitespace_witness :
    extract_cn_from_dn_chars (String.data "/CN= padded /O=x") = String.data " padded " := by
  exact C10_extract_cn_whitespace.1 (String.data "/CN= padded /O=x")
    (String.data " padded ") (by decide)

/-- Claim C5, counterexample: with the expiration timestamp equal to the
evaluation instant, `is_valid` returns true although the expiration is
not strictly in the future, so the claimed equivalence with
strict-future expiration fails at this input. -/
theorem C5_is_valid_claim_counterexample :
    ¬ (Certificate.is_valid
        { status := CertificateStatus.VALID,
          expiration_date := { year := 2030, month := 1, day := 1,
                               hour := 0, minute := 0, second := 0 },
          revocation_date := none, serial_number := "", filename := "",
          common_name := "", cert_type := none }
        { year := 2030, month := 1, day := 1, hour := 0, minute := 0, second := 0 } = true
       ↔ (CertificateStatus.VALID = CertificateStatus.VALID ∧
          dtLt { year := 2030, month := 1, day := 1, hour := 0, minute := 0, second := 0 }
               { year := 2030, month := 1, day := 1, hour := 0, minute := 0, second := 0 }
            = true)) := by
  decide

/-- Claim C5 as amended: `is_valid` returns true exactly when the status
is Valid and the expiration timestamp is not strictly earlier than the
evaluation time; the three example evaluations (expiring one day from
now is valid, expired one day ago is not, revoked is never valid) hold
as stated. -/
theorem C5_is_valid_amended :
    (∀ (c : Certificate) (now : DateTime),
      c.is_valid now = true ↔
        (c.status = CertificateStatus.VALID ∧ dtLt c.expiration_date now = false)) ∧
    Certificate.is_valid
      { status := CertificateStatus.VALID,
        expiration_date := { year := 2025, month := 6, day := 16, hour := 12, minute := 0, second := 0 },
        revocation_date := none, serial_number := "", filename := "", common_name := "" }
      { year := 2025, month := 6, day := 15, hour := 12, minute := 0, second := 0 } = true ∧
    Certificate.is_valid
      { status := CertificateStatus.VALID,
        expiration_date := { year := 2025, month := 6, day := 14, hour := 12, minute := 0, second := 0 },
        revocation_date := none, serial_number := "", filename := "", common_name := "" }
      { year := 2025, month := 6, day := 15, hour := 12, minute := 0, second := 0 } = false ∧
    Certificate.is_valid
      { status := CertificateStatus.REVOKED,
        expiration_date := { year := 2025, month := 6, day := 16, hour := 12, minute := 0, second := 0 },
        revocation_date := none, serial_number := "", filename := "", common_name := "" }
      { year := 2025, month := 6, day := 15, hour := 12, minute := 0, second := 0 } = false := by
  refine ⟨?_, by decide, by decide, by decide⟩
  intro c now
  by_cases h : c.status = CertificateStatus.VALID
  · cases hd : dtLt c.expiration_date now <;> simp [Certificate.is_valid, h, hd]
  · simp [Certificate.is_valid, h]

/-- Claim C9: certificate-type detection applies the filename substring
heuristic on the lowercased path with fixed priority, independently of
the external tool; only when the filename heuristic is inconclusive is
the tool output inspected for the three extension phrases in order,
with Client as the final default (also when the tool invocation fails);
consequently a path containing the letters c and a, such as scanner-01,
is classified as CA. -/
theorem C9_detect_cert_type :
    (∀ (p : String) (o : Option String),
      strIn "ca".data (pyLower p.data) = true →
      detect_cert_type p o = CertificateType.CA) ∧
    (∀ (p : String) (o : Option String),
      strIn "ca".data (pyLower p.data) = false →
      strIn "server".data (pyLower p.data) = true →
      detect_cert_type p o = CertificateType.SERVER) ∧
    (∀ (p : String) (o : Option String),
      strIn "ca".data (pyLower p.data) = false →
      strIn "server".data (pyLower p.data) = false →
      strIn "client".data (pyLower p.data) = true →
      detect_cert_type p o = CertificateType.CLIENT) ∧
    (∀ (p out : String),
      strIn "ca".data (pyLower p.data) = false →
      strIn "server".data (pyLower p.data) = false →
      strIn "client".data (pyLower p.data) = false →
      strIn "tls web server".data (pyLower out.data) = true →
      detect_cert_type p (some out) = CertificateType.SERVER) ∧
    (∀ (p out : String),
      strIn "ca".data (pyLower p.data) = false →
      strIn "server".data (pyLower p.data) = false →
      strIn "client".data (pyLower p.data) = false →
      strIn "tls web server".data (pyLower out.data) = false →
      strIn "tls web client".data (pyLower out.data) = true →
      detect_cert_type p (some out) = CertificateType.CLIENT) ∧
    (∀ (p out : String),
      strIn "ca".data (pyLower p.data) = false →
      strIn "server".data (pyLower p.data) = false →
      strIn "client".data (pyLower p.data) = false →
      strIn "tls web server".data (pyLower out.data) = false →
      strIn "tls web client".data (pyLower out.data) = false →
      strIn "certificate sign".data (pyLower out.data) = true →
      detect_cert_type p (some out) = CertificateType.CA) ∧
    (∀ (p out : String),
      strIn "ca".data (pyLower p.data) = false →
      strIn "server".data (pyLower p.data) = false →
      strIn "client".data (pyLower p.data) = false →
      strIn "tls web server".data (pyLower out.data) = false →
      strIn "tls web client".data (pyLower out.data) = false →
      strIn "certificate sign".data (pyLower out.data) = false →
      detect_cert_type p (some out) = CertificateType.CLIENT) ∧
    (∀ (p : String),
      strIn "ca".data (pyLower p.data) = false →
      strIn "server".data (pyLower p.data) = false →
      strIn "client".data (pyLower p.data) = false →
      detect_cert_type p none = CertificateType.CLIENT) ∧
    (∀ (o : Option String), detect_cert_type "scanner-01" o = CertificateType.CA) := by
  refine ⟨?_, ?_, ?_, ?_, ?_, ?_, ?_, ?_, ?_⟩
  · intro p o h
    simp [detect_cert_type, h]
  · intro p o h1 h2
    simp [detect_cert_type, h1, h2]
  · intro p o h1 h2 h3
    simp [detect_cert_type, h1, h2, h3]
  · intro p out h1 h2 h3 h4
    simp [detect_cert_type, h1, h2, h3, h4]
  · intro p out h1 h2 h3 h4 h5
    simp [detect_cert_type, h1, h2, h3, h4, h5]
  · intro p out h1 h2 h3 h4 h5 h6
    simp [detect_cert_type, h1, h2, h3, h4, h5, h6]
  · intro p out h1 h2 h3 h4 h5 h6
    simp [detect_cert_type, h1, h2, h3, h4, h5, h6]
  · intro p h1 h2 h3
    simp [detect_cert_type, h1, h2, h3]
  · intro o
    have h : strIn "ca".data (pyLower (String.data "scanner-01")) = true := by decide
    simp [detect_cert_type, h]

/-- Claim C2: index-file parsing keeps exactly the certificates of the
lines that parse, in file order: a line that strips to nothing, begins
with a hash, has fewer than five tab-separated fields, or whose status
field is not one of the three recognized letters is skipped, and
skipping one line never aborts the rest of the file; a missing file
yields the empty list. -/
theorem C2_parse_index_file_skips :
    parse_index_file none = [] ∧
    (∀ (l : List Char), pyStrip l = [] → parse_index_line l = none) ∧
    (∀ (l : List Char), startsWithChar '#' (pyStrip l) = true → parse_index_line l = none) ∧
    (∀ (l : List Char), (pySplitChar '\t' (pyStrip l)).length < 5 → parse_index_line l = none) ∧
    (∀ (l s : List Char) (rest : List (List Char)),
      pySplitChar '\t' (pyStrip l) = s :: rest → statusOfField s = none →
      parse_index_line l = none) ∧
    (∀ (c : Char), c ≠ 'V' → c ≠ 'R' → c ≠ 'E' → statusOfField [c] = none) ∧
    (∀ (pre : List String) (bad : String) (post : List String),
      parse_index_line bad.data = none →
      parse_index_file (some (pre ++ bad :: post)) =
        parse_index_file (some pre) ++ parse_index_file (some post)) := by
  refine ⟨rfl, ?_, ?_, ?_, ?_, ?_, ?_⟩
  · intro l h
    simp [parse_index_line, h]
  · intro l h
    have hne : ¬ (pyStrip l = []) := by
      intro h0
      rw [h0] at h
      simp [startsWithChar] at h
    simp [parse_index_line, h, hne]
  · intro l h
    by_cases hne : pyStrip l = []
    · simp [parse_index_line, hne]
    · by_cases hsw : startsWithChar '#' (pyStrip l) = true
      · simp [parse_index_line, hsw, hne]
      · simp [parse_index_line, hne, hsw, h]
  · intro l s rest hsplit hst
    by_cases hne : pyStrip l = []
    · simp [parse_index_line, hne]
    · by_cases hsw : startsWithChar '#' (pyStrip l) = true
      · simp [parse_index_line, hsw, hne]
      · by_cases hlen : (pySplitChar '\t' (pyStrip l)).length < 5
        · simp [parse_index_line, hne, hsw, hlen]
        · simp [parse_index_line, hne, hsw, hlen, hsplit, hst]
  · intro c h1 h2 h3
    simp [statusOfField, h1, h2, h3]
  · intro pre bad post h
    simp [parse_index_file, List.filterMap_append, List.filterMap_cons, h]

/-- Witness for C2 at concrete inputs: a file whose middle line carries
an unrecognized status letter yields exactly the two good lines. -/
theorem C2_parse_index_file_skips_witness :
    parse_index_file (some ["V\t300101120000Z\t\tAA\tf1\t/CN=a",
                            "X\t300101120000Z\t\tBB\tf2\t/CN=b",
                            "R\t300101120000Z\t250601120000Z\tCC\tf3\t/CN=c"]) =
      parse_index_file (some ["V\t300101120000Z\t\tAA\tf1\t/CN=a"]) ++
      parse_index_file (some ["R\t300101120000Z\t250601120000Z\tCC\tf3\t/CN=c"]) := by
  exact C2_parse_index_file_skips.2.2.2.2.2.2
    ["V\t300101120000Z\t\tAA\tf1\t/CN=a"]
    "X\t300101120000Z\t\tBB\tf2\t/CN=b"
    ["R\t300101120000Z\t250601120000Z\tCC\tf3\t/CN=c"]
    (by decide)

/-- Claim C3: a well-formed six-field index line parses to a certificate
whose status is the image of the status letter under the fixed mapping,
whose serial number and filename are the corresponding fields verbatim,
whose common name is the CN extraction of the DN field, whose
expiration is the expiry field parsed under the fixed-width two-digit
year timestamp format, and whose revocation timestamp is absent exactly
when the revocation field is empty. -/
theorem C3_parse_index_line_wellformed :
    (statusOfField ['V'] = some CertificateStatus.VALID ∧
     statusOfField ['R'] = some CertificateStatus.REVOKED ∧
     statusOfField ['E'] = some CertificateStatus.EXPIRED) ∧
    ∀ (line s e r ser fn dn : List Char) (st : CertificateStatus) (d : DateTime)
      (ro : Option DateTime),
      pySplitChar '\t' (pyStrip line) = [s, e, r, ser, fn, dn] →
      statusOfField s = some st →
      strptime_yymmddhhmmssZ e = some d →
      parseRevocationField r = some ro →
      parse_index_line line = some ⟨st, d, ro, String.mk ser, String.mk fn,
        String.mk (extract_cn_from_dn_chars dn), none⟩ ∧ (ro = none ↔ r = []) := by
  refine ⟨⟨rfl, rfl, rfl⟩, ?_⟩
  intro line s e r ser fn dn st d ro hsplit hst hexp hrev
  have hne : ¬ (pyStrip line = []) := by
    intro h0
    rw [h0] at hsplit
    simp [pySplitChar] at hsplit
  have hs3 := statusOfField_eq_some s st hst
  have hc : ∃ c0, s = [c0] ∧ (c0 = 'V' ∨ c0 = 'R' ∨ c0 = 'E') := by
    rcases hs3 with h | h | h
    · exact ⟨'V', h, Or.inl rfl⟩
    · exact ⟨'R', h, Or.inr (Or.inl rfl)⟩
    · exact ⟨'E', h, Or.inr (Or.inr rfl)⟩
  obtain ⟨c0, hs, hc0⟩ := hc
  subst hs
  have hhead := pySplitChar_head '\t' (pyStrip line) c0 [] [e, r, ser, fn, dn] hsplit
  have hsw : startsWithChar '#' (pyStrip line) = false := by
    cases hl : pyStrip line with
    | nil => exact absurd hl hne
    | cons a t =>
      rw [hl] at hhead
      simp only [List.head?_cons, Option.some.injEq] at hhead
      subst hhead
      rcases hc0 with h | h | h <;> subst h <;> rfl
  constructor
  · simp [parse_index_line, hsplit, hne, hsw, hst, hexp, hrev]
  · by_cases hr0 : r = []
    · subst hr0
      simp [parseRevocationField] at hrev
      subst hrev
      simp
    · simp only [parseRevocationField, if_neg hr0, Option.map_eq_some'] at hrev
      obtain ⟨rd, hrd, hro⟩ := hrev
      constructor
      · intro h0
        rw [← hro] at h0
        simp at h0
      · intro h0
        exact absurd h0 hr0

/-- Witness for C3 at a concrete well-formed index line. -/
theorem C3_parse_index_line_wellformed_witness :
    parse_index_line (String.data "V\t300101120000Z\t\tAB12\tfile.crt\t/CN=server1/O=MyOrg")
      = some ⟨CertificateStatus.VALID, ⟨2030, 1, 1, 12, 0, 0⟩, none, "AB12",
              "file.crt", "server1", none⟩ := by
  have h := (C3_parse_index_line_wellformed.2
    (String.data "V\t300101120000Z\t\tAB12\tfile.crt\t/CN=server1/O=MyOrg")
    (String.data "V") (String.data "300101120000Z") [] (String.data "AB12")
    (String.data "file.crt") (String.data "/CN=server1/O=MyOrg")
    CertificateStatus.VALID ⟨2030, 1, 1, 12, 0, 0⟩
    none (by decide) (by decide) (by decide) (by decide)).1
  exact h

/-- Claim C6: for every stderr text the error-message simplifier agrees
with the claim's description, recomputed independently as
`claim_error_summary`: noise lines starting with a bracket or an
asterisk are dropped, lines mentioning error or failed
case-insensitively are preferred up to three, otherwise the first three
non-empty lines are used, an empty input yields the fixed sentinel, and
failing everything else the first 200 characters are returned verbatim;
the two example evaluations of the specification hold. -/
theorem C6_parse_error_message_spec :
    (∀ (s : String), parse_error_message s = claim_error_summary s) ∧
    parse_error_message "" = "Unknown error occurred" ∧
    parse_error_message "[ debug noise\nError: bad key\n* more noise" = "Error: bad key" := by
  refine ⟨?_, rfl, by decide⟩
  intro s
  by_cases h0 : s = ""
  · subst h0
    rfl
  · simp only [parse_error_message, claim_error_summary, if_neg h0]
    rw [errorLines_eq (pySplitChar '\n' s.data)]

/-- Claim C7: the vars-file reader returns the empty mapping for a
missing file and otherwise builds the mapping line by line: a stripped
line beginning with the set-var keyword contributes its whitespace-split
name and quote-stripped value, a stripped line beginning with the
export keyword is split on the first equals sign into a stripped name
and a quote-stripped value, and every other line leaves the mapping
unchanged; the example file of the specification yields exactly the two
expected entries. -/
theorem C7_set_vars :
    set_vars none = [] ∧
    (∀ (ls : List String) (l : String),
      set_vars (some (ls ++ [l])) = set_vars_line (set_vars (some ls)) l) ∧
    (∀ (env : List (String × String)) (l : String),
      List.isPrefixOf "set_var ".data (pyStrip l.data) = false →
      List.isPrefixOf "export ".data (pyStrip l.data) = false →
      set_vars_line env l = env) ∧
    (∀ (env : List (String × String)) (l : String) (k v : List Char),
      List.isPrefixOf "set_var ".data (pyStrip l.data) = true →
      pySplitNone1 ((pyStrip l.data).drop 8) = [k, v] →
      set_vars_line env l = dictInsert (String.mk k) (String.mk (stripQuotes v)) env) ∧
    (∀ (env : List (String × String)) (l : String) (k v : List Char),
      List.isPrefixOf "set_var ".data (pyStrip l.data) = false →
      List.isPrefixOf "export ".data (pyStrip l.data) = true →
      pySplitEq1 ((pyStrip l.data).drop 7) = [k, v] →
      set_vars_line env l = dictInsert (String.mk (pyStrip k)) (String.mk (stripQuotes v)) env) ∧
    set_vars (some ["set_var FOO \"bar baz\"", "export X=1", "# unrelated comment line"])
      = [("FOO", "bar baz"), ("X", "1")] := by
  refine ⟨rfl, ?_, ?_, ?_, ?_, by decide⟩
  · intro ls l
    simp [set_vars, List.foldl_append]
  · intro env l h1 h2
    simp [set_vars_line, h1, h2]
  · intro env l k v h1 h2
    simp [set_vars_line, h1, h2]
  · intro env l k v h1 h2 h3
    simp [set_vars_line, h1, h2, h3]

/-- Witness for C7 at a concrete set-var line. -/
theorem C7_set_vars_witness :
    set_vars_line [] "set_var KEY 'quoted value'"
      = dictInsert "KEY" "quoted value" [] := by
  have h := C7_set_vars.2.2.2.1 [] "set_var KEY 'quoted value'"
    (String.data "KEY") (String.data "'quoted value'") (by decide) (by decide)
  exact h

/-- Claim C8: counting certificates aggregates, in one pass over the
certificate listing, a mapping whose per-status entries are the numbers
of Valid, Revoked and Expired certificates and whose total is their
sum; against a missing index file the listing is empty without raising
and every count is zero. -/
theorem C8_count_certificates :
    (∀ (f : Option (List String)),
      count_certificates f =
        ⟨countWithStatus CertificateStatus.VALID (list_certificates f none) +
         countWithStatus CertificateStatus.REVOKED (list_certificates f none) +
         countWithStatus CertificateStatus.EXPIRED (list_certificates f none),
         countWithStatus CertificateStatus.VALID (list_certificates f none),
         countWithStatus CertificateStatus.REVOKED (list_certificates f none),
         countWithStatus CertificateStatus.EXPIRED (list_certificates f none)⟩) ∧
    (∀ (filt : Option CertificateStatus), list_certificates none filt = []) ∧
    count_certificates none = ⟨0, 0, 0, 0⟩ := by
  refine ⟨?_, ?_, rfl⟩
  · intro f
    rw [count_certificates, countStep_foldl, length_eq_statusSum]
    simp
  · intro filt
    rfl

/-- Witness for C9 at concrete inputs. -/
theorem C9_detect_cert_type_witness :
    detect_cert_type "myCA.crt" none = CertificateType.CA ∧
    detect_cert_type "node1.crt" (some "TLS Web Server Authentication")
      = CertificateType.SERVER := by
  refine ⟨?_, ?_⟩
  · exact C9_detect_cert_type.1 "myCA.crt" none (by decide)
  · exact C9_detect_cert_type.2.2.2.1 "node1.crt" "TLS Web Server Authentication"
      (by decide) (by decide) (by decide) (by decide)

end EasyRsa
